import Mathlib

/-!
Verification of the interrupt-handling core of the sos-kernel repository
(`src/arch/x86_64/cpu/interrupts.rs`), as a shallow embedding in Lean 4.

Machine integers are modelled as `Nat` with explicit `% 2^w` where
truncation matters.  Functions that can hit a Rust panic return the
untouched state paired with an `Option String` carrying the panic
message, or (for the dispatcher) a trace of externally visible calls
paired with an `Option String`; `none` means the call returned normally.

Items that live in repository files outside `src/` (the `x86_all`
modules, the `segment` module and the `pics` driver) are modelled from
the spec and are marked as such in their doc comments.
-/

/-- Little-endian byte decomposition of a value stored in `w` bytes;
used to state byte-identity of gate encodings (`repr(C, packed)`). -/
def leBytes (w : Nat) (v : Nat) : List Nat :=
  (List.range w).map (fun i => v / 2 ^ (8 * i) % 2 ^ 8)

/-- Modelled from the spec: the slot count of the interrupt table
(`IDT_ENTRIES`, defined in `x86_all/interrupts.rs`, which is not under
`src/`); the spec fixes 256 slots, one per representable interrupt id. -/
def IDT_ENTRIES : Nat := 256

/-- Modelled from the spec: the opaque code-segment selector supplied by
the segment subsystem (`segment::Selector`, not under `src/`); a wrapped
16-bit value. -/
structure Selector where
  bits : Nat
  deriving DecidableEq, Repr

/-- Modelled from the spec: `Selector::from_raw` wraps a raw 16-bit value. -/
def Selector.from_raw (raw : Nat) : Selector := ⟨raw % 2 ^ 16⟩

/-- Modelled from the spec: `Selector::new` builds the selector from the
boot-provided `gdt64_offset` value; consumed by-value when building gates. -/
def Selector.new (raw : Nat) : Selector := ⟨raw % 2 ^ 16⟩

/-- Modelled from the spec: the type/attribute byte of an absent gate
(`GateType::Absent as u8` in `x86_all/interrupts.rs`, not under `src/`).
The spec requires the present bit (bit 7) clear and all address bits of
the absent gate zero. -/
def gateTypeAbsent : Nat := 0x00

/-- Modelled from the spec and the code comments at the construction
site: present bit (bit 7) set, low bits `0b1110` marking an interrupt
gate (`GateType::Interrupt as u8`). -/
def gateTypeInterrupt : Nat := 0x8e

/-- Handler entry points are function pointers, i.e. 64-bit addresses. -/
abbrev Handler := Nat

/-- Modelled from the spec: the `Registers` snapshot saved by the entry
stub — an ordered sequence of machine-word register values, pure data. -/
structure Registers where
  regs : List Nat
  deriving DecidableEq, Repr

/-- State stored when handling an interrupt (`InterruptCtx64`,
`repr(C, packed)`): callee-saved registers, interrupt id (`u32`),
error number (`u32`), and the two padding words. -/
structure InterruptCtx64 where
  registers : Registers
  int_id : Nat
  pad_1 : Nat
  err_no : Nat
  pad_2 : Nat
  deriving DecidableEq, Repr

/-- An IDT entry (`Gate64`, `repr(C, packed)`): handler offset split into
lower/mid/upper fields, selector, the always-zero byte, the
type/attribute byte, and the reserved word. -/
structure Gate64 where
  offset_lower : Nat
  selector : Selector
  zero : Nat
  type_attr : Nat
  offset_mid : Nat
  offset_upper : Nat
  reserved : Nat
  deriving DecidableEq, Repr

/-- Gate64::absent — a gate with every offset field zero, the zero
selector, and the `Absent` type/attribute byte (a `const fn` in the
source, i.e. a closed constant term here). -/
def Gate64.absent : Gate64 :=
  { offset_lower := 0
  , selector := Selector.from_raw 0
  , zero := 0
  , type_attr := gateTypeAbsent
  , offset_mid := 0
  , offset_upper := 0
  , reserved := 0
  }

/-- Gate64::from_handler — splits the handler address into
`(low, mid, high) : (u16, u16, u32)` (the little-endian split performed
by the transmute in the source), sets the selector from the
boot-provided `gdt64_offset`, and marks an interrupt gate.  The ambient
`extern static gdt64_offset` is passed explicitly. -/
def Gate64.from_handler (gdt64_offset : Nat) (handler : Handler) : Gate64 :=
  { offset_lower := handler % 2 ^ 16
  , selector := Selector.new gdt64_offset
  , zero := 0
  , type_attr := gateTypeInterrupt
  , offset_mid := handler / 2 ^ 16 % 2 ^ 16
  , offset_upper := handler / 2 ^ 32 % 2 ^ 32
  , reserved := 0
  }

/-- Byte encoding of a gate per its `repr(C, packed)` layout: 16 bytes,
each field little-endian in declaration order. -/
def Gate64.bytes (g : Gate64) : List Nat :=
  leBytes 2 g.offset_lower ++ leBytes 2 g.selector.bits ++
    leBytes 1 g.zero ++ leBytes 1 g.type_attr ++
    leBytes 2 g.offset_mid ++ leBytes 4 g.offset_upper ++ leBytes 4 g.reserved

/-- Idt64 — a fixed array of `IDT_ENTRIES` gates. -/
structure Idt64 where
  gates : Fin IDT_ENTRIES → Gate64

/-- The panic message Rust's bounds check produces for an out-of-range
array index. -/
def outOfBoundsMsg (index : Nat) : String :=
  "index out of bounds: the len is " ++ toString IDT_ENTRIES ++
    " but the index is " ++ toString index

/-- Idt64::add_gate — `self.0[index] = Gate64::from_handler(handler)`.
The bounds check runs before the write, so an out-of-range index
produces the bounds panic and leaves the table untouched.  Returns the
table after the call together with the panic, if any. -/
def add_gate (gdt64_offset : Nat) (self : Idt64) (index : Nat)
    (handler : Handler) : Idt64 × Option String :=
  if _ : index < IDT_ENTRIES then
    (⟨fun j => if j.val = index
               then Gate64.from_handler gdt64_offset handler
               else self.gates j⟩, none)
  else
    (self, some (outOfBoundsMsg index))

/-- The four arms of the `match id` in `handle_interrupt`:
`0x00...0x0f` (inclusive range), `0x20`, `0x21`, and the wildcard. -/
inductive MatchArm
  | cpuException
  | timer
  | keyboard
  | unknown
  deriving DecidableEq, Repr

/-- Which arm of the `match id` in `handle_interrupt` a given id takes.
The lower bound of `0x00...0x0f` is vacuous over `Nat`. -/
def matchArm (id : Nat) : MatchArm :=
  if id ≤ 0x0f then MatchArm.cpuException
  else if id = 0x20 then MatchArm.timer
  else if id = 0x21 then MatchArm.keyboard
  else MatchArm.unknown

/-- The three classification paths the spec names: CPU-exception (fault),
known-device, and unrecognized-fatal. -/
inductive DispatchPath
  | fault
  | knownDevice
  | fatal
  deriving DecidableEq, Repr

/-- The classification path taken for an id: the timer and keyboard arms
are the two known-device hooks. -/
def pathOf (id : Nat) : DispatchPath :=
  match matchArm id with
  | MatchArm.cpuException => DispatchPath.fault
  | MatchArm.timer => DispatchPath.knownDevice
  | MatchArm.keyboard => DispatchPath.knownDevice
  | MatchArm.unknown => DispatchPath.fatal

/-- Externally visible calls made by `handle_interrupt`: the call into
`Self::handle_cpu_exception(state)` (which borrows the whole context),
and `pics::end_pic_interrupt(id as u8)`. -/
inductive Event
  | handleCpuException (state : InterruptCtx64)
  | endPicInterrupt (id : Nat)
  deriving DecidableEq, Repr

/-- Idt64::handle_interrupt — reads `state.int_id()`, matches on it
(CPU exceptions route to `handle_cpu_exception`, the timer and keyboard
arms are empty placeholder blocks, any other id panics with the id in
the message), then sends `end_pic_interrupt(id as u8)`.  A Rust panic
diverges, so the arms after a panic emit no further calls.  Returns the
trace of external calls and the panic, if any. -/
def handle_interrupt (state : InterruptCtx64) : List Event × Option String :=
  let id := state.int_id
  match matchArm id with
  | MatchArm.cpuException =>
      ([Event.handleCpuException state, Event.endPicInterrupt (id % 2 ^ 8)], none)
  | MatchArm.timer => ([Event.endPicInterrupt (id % 2 ^ 8)], none)
  | MatchArm.keyboard => ([Event.endPicInterrupt (id % 2 ^ 8)], none)
  | MatchArm.unknown =>
      ([], some ("Unknown interrupt: #" ++ toString id ++ " Sorry!"))

/-- The arguments of the `end_pic_interrupt` calls in a trace, in order. -/
def eoiArgs (evs : List Event) : List Nat :=
  evs.filterMap (fun e =>
    match e with
    | Event.endPicInterrupt n => some n
    | _ => none)

/-- Dispatch as a step on the kernel interrupt state: `handle_interrupt`
is an associated function taking only the borrowed context (`&Self::Ctx`)
— it has no `self` and no mutable access to the global table, so the
step pairs the unchanged table with the dispatch outcome. -/
def dispatch_step (idt : Idt64) (state : InterruptCtx64) :
    Idt64 × (List Event × Option String) :=
  (idt, handle_interrupt state)

/-- The global IDT in its initial (unconfigured) state:
`Idt64([Gate64::absent(); IDT_ENTRIES])` (the `Mutex` wrapper guards
access and does not change the value). -/
def IDT : Idt64 := ⟨fun _ => Gate64.absent⟩

/-- Steps of the kernel init entry point of `interrupts.rs`
(`pub fn` at lines 196-206): the externally visible operations, plus
acquiring and releasing the global lock (the guard drops at end of
scope). -/
inductive InitEvent
  | lockIDT
  | loadIDT
  | picsInit
  | enableInterrupts
  | unlockIDT
  deriving DecidableEq, Repr

/-- The trace of the kernel init entry point: lock the global table,
`idt.load()`, `pics` controller init, `Idt64::enable_interrupts()`,
release the lock. -/
def kernelInitTrace : List InitEvent :=
  [ InitEvent.lockIDT
  , InitEvent.loadIDT
  , InitEvent.picsInit
  , InitEvent.enableInterrupts
  , InitEvent.unlockIDT
  ]

/-- A context carrying a given interrupt id, with empty register
snapshot and zero error code. -/
def ctxWithId (id : Nat) : InterruptCtx64 :=
  { registers := ⟨[]⟩, int_id := id, pad_1 := 0, err_no := 0, pad_2 := 0 }

example : matchArm 14 = MatchArm.cpuException := by decide
example : matchArm 0x21 = MatchArm.keyboard := by decide
example : eoiArgs (handle_interrupt (ctxWithId 0x21)).1 = [0x21] := by decide
example : (handle_interrupt (ctxWithId 200)).1 = [] := by decide
example : (handle_interrupt (ctxWithId 200)).2
    = some "Unknown interrupt: #200 Sorry!" := by decide

/-- Characterization of the four arms of the `match id` in
`handle_interrupt`. -/
theorem matchArm_spec (id : Nat) :
    (matchArm id = MatchArm.cpuException ↔ id ≤ 0x0f)
  ∧ (matchArm id = MatchArm.timer ↔ id = 0x20)
  ∧ (matchArm id = MatchArm.keyboard ↔ id = 0x21)
  ∧ (matchArm id = MatchArm.unknown ↔ (0x0f < id ∧ id ≠ 0x20 ∧ id ≠ 0x21)) := by
  unfold matchArm
  split_ifs with h1 h2 h3 <;> refine ⟨?_, ?_, ?_, ?_⟩ <;> simp_all <;> omega

/-- Characterization of the three classification paths. -/
theorem pathOf_spec (id : Nat) :
    (pathOf id = DispatchPath.fault ↔ id ≤ 0x0f)
  ∧ (pathOf id = DispatchPath.knownDevice ↔ (id = 0x20 ∨ id = 0x21))
  ∧ (pathOf id = DispatchPath.fatal ↔ (0x0f < id ∧ id ≠ 0x20 ∧ id ≠ 0x21)) := by
  unfold pathOf matchArm
  split_ifs with h1 h2 h3 <;> refine ⟨?_, ?_, ?_⟩ <;> simp_all
  omega

/-- C1 counterexample: dispatching the unmapped id 200 takes the panic
arm, which diverges before the `end_pic_interrupt` call, so the
acknowledgment is not invoked at all — not exactly once. -/
theorem C1_counterexample :
    ¬ (eoiArgs (handle_interrupt (ctxWithId 200)).1 = [200]) := by decide

/-- C1 (amended): `end_pic_interrupt` is invoked exactly once, with the
dispatched id truncated to 8 bits, on every dispatch that completes
without panicking; on the fatal unrecognized path the panic diverges
before the acknowledgment, so it is invoked zero times, and a dispatch
completes exactly when the id avoids the wildcard arm. -/
theorem C1_eoi_exactly_once_unless_fatal (ctx : InterruptCtx64) :
    eoiArgs (handle_interrupt ctx).1
      = (if (handle_interrupt ctx).2.isNone then [ctx.int_id % 2 ^ 8] else [])
  ∧ ((handle_interrupt ctx).2.isNone = true
      ↔ matchArm ctx.int_id ≠ MatchArm.unknown) := by
  cases h : matchArm ctx.int_id <;> simp [handle_interrupt, h, eoiArgs]

/-- C2: the `match` in `handle_interrupt` is total — ids 0 through 15
inclusive take the fault path, 0x20 the timer arm and 0x21 the keyboard
arm (the two known-device hooks), and every other id the fatal arm,
whose panic message reports the offending id; the iff characterizations
over mutually exclusive, exhaustive conditions give that each id maps to
exactly one path. -/
theorem C2_classification_total (id : Nat) (hid : id < 2 ^ 32) :
    (pathOf id = DispatchPath.fault ↔ id ≤ 0x0f)
  ∧ (matchArm id = MatchArm.timer ↔ id = 0x20)
  ∧ (matchArm id = MatchArm.keyboard ↔ id = 0x21)
  ∧ (pathOf id = DispatchPath.knownDevice ↔ (id = 0x20 ∨ id = 0x21))
  ∧ (pathOf id = DispatchPath.fatal ↔ (0x0f < id ∧ id ≠ 0x20 ∧ id ≠ 0x21))
  ∧ (pathOf id = DispatchPath.fatal →
      (handle_interrupt (ctxWithId id)).2
        = some ("Unknown interrupt: #" ++ toString id ++ " Sorry!")) := by
  obtain ⟨hf, hd, hfat⟩ := pathOf_spec id
  obtain ⟨_, ht, hk, hu⟩ := matchArm_spec id
  refine ⟨hf, ht, hk, hd, hfat, ?_⟩
  intro hfatal
  have harm : matchArm id = MatchArm.unknown := hu.mpr (hfat.mp hfatal)
  simp [handle_interrupt, ctxWithId, harm]

/-- C2 witness: the theorem instantiated at id 200. -/
theorem C2_witness :
    200 < 2 ^ 32 ∧
    ((pathOf 200 = DispatchPath.fault ↔ 200 ≤ 0x0f)
  ∧ (matchArm 200 = MatchArm.timer ↔ 200 = 0x20)
  ∧ (matchArm 200 = MatchArm.keyboard ↔ 200 = 0x21)
  ∧ (pathOf 200 = DispatchPath.knownDevice ↔ (200 = 0x20 ∨ 200 = 0x21))
  ∧ (pathOf 200 = DispatchPath.fatal ↔ (0x0f < 200 ∧ 200 ≠ 0x20 ∧ 200 ≠ 0x21))
  ∧ (pathOf 200 = DispatchPath.fatal →
      (handle_interrupt (ctxWithId 200)).2
        = some ("Unknown interrupt: #" ++ toString 200 ++ " Sorry!"))) :=
  ⟨by decide, C2_classification_total 200 (by decide)⟩

/-- C3: `add_gate i h` stores `Gate64.from_handler h` at slot `i`
without panicking when `i` is in bounds, and a second `add_gate` on the
same index overwrites it — last write wins. -/
theorem C3_add_gate_last_write_wins (gdt : Nat) (t : Idt64) (i : Nat)
    (ha hb : Handler) (hi : i < IDT_ENTRIES) :
    ((add_gate gdt t i ha).1).gates ⟨i, hi⟩ = Gate64.from_handler gdt ha
  ∧ (add_gate gdt t i ha).2 = none
  ∧ ((add_gate gdt ((add_gate gdt t i ha).1) i hb).1).gates ⟨i, hi⟩
      = Gate64.from_handler gdt hb := by
  simp [add_gate, hi]

/-- C3 witness: the theorem instantiated at slot 33 of the initial table
with two distinct handler addresses. -/
theorem C3_witness :
    (33 : Nat) < IDT_ENTRIES ∧
    (((add_gate 0x28 IDT 33 0x1111).1).gates ⟨33, by decide⟩
        = Gate64.from_handler 0x28 0x1111
  ∧ (add_gate 0x28 IDT 33 0x1111).2 = none
  ∧ ((add_gate 0x28 ((add_gate 0x28 IDT 33 0x1111).1) 33 0x2222).1).gates
        ⟨33, by decide⟩ = Gate64.from_handler 0x28 0x2222) :=
  ⟨by decide, C3_add_gate_last_write_wins 0x28 IDT 33 0x1111 0x2222 (by decide)⟩

/-- C4: the three offset fields of `Gate64.from_handler h` recombine to
the handler address `h` exactly, for every representable 64-bit address. -/
theorem C4_from_handler_round_trip (gdt : Nat) (h : Nat)
    (hh : h < 2 ^ 64) :
    (Gate64.from_handler gdt h).offset_lower
      + (Gate64.from_handler gdt h).offset_mid * 2 ^ 16
      + (Gate64.from_handler gdt h).offset_upper * 2 ^ 32 = h := by
  show h % 2 ^ 16 + h / 2 ^ 16 % 2 ^ 16 * 2 ^ 16 + h / 2 ^ 32 % 2 ^ 32 * 2 ^ 32 = h
  omega

/-- C4 witness: the round trip at a concrete 64-bit handler address. -/
theorem C4_witness :
    (0xdeadbeefcafebabe : Nat) < 2 ^ 64 ∧
    (Gate64.from_handler 0x28 0xdeadbeefcafebabe).offset_lower
      + (Gate64.from_handler 0x28 0xdeadbeefcafebabe).offset_mid * 2 ^ 16
      + (Gate64.from_handler 0x28 0xdeadbeefcafebabe).offset_upper * 2 ^ 32
      = 0xdeadbeefcafebabe :=
  ⟨by decide, C4_from_handler_round_trip 0x28 0xdeadbeefcafebabe (by decide)⟩

/-- C5: every slot of the initial global table holds the absent gate —
all three offset fields zero and the type/attribute byte the
not-present value (present bit 7 clear); no slot holds anything else. -/
theorem C5_initial_table_all_absent (i : Fin IDT_ENTRIES) :
    IDT.gates i = Gate64.absent
  ∧ (IDT.gates i).offset_lower = 0
  ∧ (IDT.gates i).offset_mid = 0
  ∧ (IDT.gates i).offset_upper = 0
  ∧ (IDT.gates i).type_attr = gateTypeAbsent
  ∧ Nat.testBit (IDT.gates i).type_attr 7 = false := by
  refine ⟨rfl, rfl, rfl, rfl, rfl, ?_⟩
  show Nat.testBit gateTypeAbsent 7 = false
  decide

/-- C6: the kernel init entry point acquires the global lock, then
performs exactly load-table, controller-init, enable-interrupts, in that
order, each exactly once, before releasing the lock; in particular
interrupt delivery is enabled strictly after the table is loaded. -/
theorem C6_init_order :
    kernelInitTrace
      = [ InitEvent.lockIDT, InitEvent.loadIDT, InitEvent.picsInit
        , InitEvent.enableInterrupts, InitEvent.unlockIDT ]
  ∧ kernelInitTrace.indexOf InitEvent.loadIDT
      < kernelInitTrace.indexOf InitEvent.picsInit
  ∧ kernelInitTrace.indexOf InitEvent.picsInit
      < kernelInitTrace.indexOf InitEvent.enableInterrupts
  ∧ kernelInitTrace.indexOf InitEvent.lockIDT
      < kernelInitTrace.indexOf InitEvent.loadIDT
  ∧ kernelInitTrace.indexOf InitEvent.enableInterrupts
      < kernelInitTrace.indexOf InitEvent.unlockIDT
  ∧ kernelInitTrace.count InitEvent.loadIDT = 1
  ∧ kernelInitTrace.count InitEvent.picsInit = 1
  ∧ kernelInitTrace.count InitEvent.enableInterrupts = 1 := by decide

/-- C7: `Gate64.absent` has every offset field, the selector, the
always-zero byte and the reserved word equal to zero, and its
type/attribute byte is the not-present value (present bit 7 clear); it
is a closed constant term, the image of the source's `const fn`. -/
theorem C7_absent_gate_encoding :
    Gate64.absent.offset_lower = 0
  ∧ Gate64.absent.offset_mid = 0
  ∧ Gate64.absent.offset_upper = 0
  ∧ Gate64.absent.selector.bits = 0
  ∧ Gate64.absent.zero = 0
  ∧ Gate64.absent.reserved = 0
  ∧ Gate64.absent.type_attr = gateTypeAbsent
  ∧ Nat.testBit Gate64.absent.type_attr 7 = false := by decide

/-- C8: gate construction is deterministic — two calls of
`Gate64.from_handler` on the same handler address under the same fixed
`gdt64_offset` yield equal gates and byte-identical encodings; the
embedding takes `gdt64_offset` as the only ambient input, so no other
prior state can influence the result. -/
theorem C8_from_handler_deterministic (ga gb ha hb : Nat)
    (hg : ga = gb) (hh : ha = hb) :
    Gate64.bytes (Gate64.from_handler ga ha)
      = Gate64.bytes (Gate64.from_handler gb hb)
  ∧ Gate64.from_handler ga ha = Gate64.from_handler gb hb := by
  subst hg hh
  exact ⟨rfl, rfl⟩

/-- C8 witness: determinism instantiated at a concrete offset and
handler address. -/
theorem C8_witness :
    (0x28 : Nat) = 0x28 ∧ (0xffffabcd1234 : Nat) = 0xffffabcd1234 ∧
    (Gate64.bytes (Gate64.from_handler 0x28 0xffffabcd1234)
      = Gate64.bytes (Gate64.from_handler 0x28 0xffffabcd1234)
  ∧ Gate64.from_handler 0x28 0xffffabcd1234
      = Gate64.from_handler 0x28 0xffffabcd1234) :=
  ⟨rfl, rfl,
   C8_from_handler_deterministic 0x28 0x28 0xffffabcd1234 0xffffabcd1234 rfl rfl⟩

/-- C9: dispatch is a frame on the kernel interrupt state — the table
after `dispatch_step` is the table before it (the dispatcher has no
`self` and no mutable access) — and the dispatch outcome depends on the
context only through `int_id`: two contexts with the same id produce the
same acknowledgment calls, the same panic outcome and the same
classification path (the context itself is additionally passed, by
reference and unread, to the CPU-exception hook on the fault path). -/
theorem C9_dispatch_frame_and_reads (t : Idt64) (ca cb : InterruptCtx64)
    (hid : ca.int_id = cb.int_id) :
    (dispatch_step t ca).1 = t
  ∧ eoiArgs (handle_interrupt ca).1 = eoiArgs (handle_interrupt cb).1
  ∧ (handle_interrupt ca).2 = (handle_interrupt cb).2
  ∧ pathOf ca.int_id = pathOf cb.int_id := by
  refine ⟨rfl, ?_, ?_, by rw [hid]⟩ <;>
    · simp only [handle_interrupt, hid]
      cases h : matchArm cb.int_id <;> simp [h, eoiArgs]

/-- C9 witness: the theorem instantiated at the initial table and two
contexts sharing id 0x20 but differing in registers, padding and error
code. -/
theorem C9_witness :
    (ctxWithId 0x20).int_id
      = (InterruptCtx64.mk ⟨[1, 2, 3]⟩ 0x20 7 9 4).int_id ∧
    ((dispatch_step IDT (ctxWithId 0x20)).1 = IDT
  ∧ eoiArgs (handle_interrupt (ctxWithId 0x20)).1
      = eoiArgs (handle_interrupt (InterruptCtx64.mk ⟨[1, 2, 3]⟩ 0x20 7 9 4)).1
  ∧ (handle_interrupt (ctxWithId 0x20)).2
      = (handle_interrupt (InterruptCtx64.mk ⟨[1, 2, 3]⟩ 0x20 7 9 4)).2
  ∧ pathOf (ctxWithId 0x20).int_id
      = pathOf (InterruptCtx64.mk ⟨[1, 2, 3]⟩ 0x20 7 9 4).int_id) :=
  ⟨rfl, C9_dispatch_frame_and_reads IDT (ctxWithId 0x20)
          (InterruptCtx64.mk ⟨[1, 2, 3]⟩ 0x20 7 9 4) rfl⟩

/-- C10: `add_gate` on an index at or past the slot count hits the
bounds check before any write: the call produces the bounds panic and
every slot of the table is exactly as before. -/
theorem C10_add_gate_out_of_bounds (gdt : Nat) (t : Idt64) (i : Nat)
    (hdl : Handler) (hi : IDT_ENTRIES ≤ i) :
    add_gate gdt t i hdl = (t, some (outOfBoundsMsg i))
  ∧ ((add_gate gdt t i hdl).1).gates = t.gates := by
  have hlt : ¬ i < IDT_ENTRIES := by omega
  have heq : add_gate gdt t i hdl = (t, some (outOfBoundsMsg i)) := by
    simp [add_gate, hlt]
  exact ⟨heq, by rw [heq]⟩

/-- C10 witness: the theorem instantiated at the first out-of-range
index, 256, on the initial table. -/
theorem C10_witness :
    IDT_ENTRIES ≤ 256 ∧
    (add_gate 0x28 IDT 256 0x1111 = (IDT, some (outOfBoundsMsg 256))
  ∧ ((add_gate 0x28 IDT 256 0x1111).1).gates = IDT.gates) :=
  ⟨by decide, C10_add_gate_out_of_bounds 0x28 IDT 256 0x1111 (by decide)⟩

/-- C1 witness: the amended statement instantiated at a keyboard
interrupt (id 0x21) — one acknowledgment with id 0x21 — via the
theorem. -/
theorem C1_witness :
    eoiArgs (handle_interrupt (ctxWithId 0x21)).1
      = (if (handle_interrupt (ctxWithId 0x21)).2.isNone
         then [(ctxWithId 0x21).int_id % 2 ^ 8] else [])
  ∧ ((handle_interrupt (ctxWithId 0x21)).2.isNone = true
      ↔ matchArm (ctxWithId 0x21).int_id ≠ MatchArm.unknown) :=
  C1_eoi_exactly_once_unless_fatal (ctxWithId 0x21)

/-- C5 witness: the initial-table statement instantiated at slot 0. -/
theorem C5_witness :
    IDT.gates ⟨0, by decide⟩ = Gate64.absent
  ∧ (IDT.gates ⟨0, by decide⟩).offset_lower = 0
  ∧ (IDT.gates ⟨0, by decide⟩).offset_mid = 0
  ∧ (IDT.gates ⟨0, by decide⟩).offset_upper = 0
  ∧ (IDT.gates ⟨0, by decide⟩).type_attr = gateTypeAbsent
  ∧ Nat.testBit (IDT.gates ⟨0, by decide⟩).type_attr 7 = false :=
  C5_initial_table_all_absent ⟨0, by decide⟩
